import Mathlib

/-!
Verification of the jina control-layer fragment: the Runtime lifecycle
contract (`src/jina/peapods/runtimes/base.py`) and the Pod/Group
configuration builders (`src/jina/parsers/peapods/pod.py`,
`src/jina/parsers/peapods/pods/base.py`).

The Supervisor ("BasePea") that drives a Runtime through its lifecycle, the
Group ("BasePod") construction/validation code and the message-routing code
are not part of the source fragment; where a property concerns them they are
modelled from the specification, and each such definition says so in its
doc comment.
-/

namespace Jina

/-! ## Lifecycle data model -/

/-- The lifecycle states of a Runtime as named by the spec:
`Created → SettingUp → Serving → Cancelling → TornDown → Terminated`,
plus the absorbing error state `Failed`. -/
inductive RuntimeState
  | Created
  | SettingUp
  | Serving
  | Cancelling
  | TornDown
  | Terminated
  | Failed
deriving DecidableEq, Repr, Fintype

/-- The three hook operations a Supervisor invokes inside the spawned
execution context.  (`cancel` is invoked from the owning context and is
modelled separately, as a signal, in `SupState`.) -/
inductive Hook
  | setup
  | serveForever
  | teardown
deriving DecidableEq, Repr

/-- How a `serve_forever` invocation ends: unblocked by the `cancel` signal,
or by raising an error from inside (which the code's docstring says moves
immediately to `teardown`). -/
inductive ServeExit
  | unblockedByCancel
  | raisedError
deriving DecidableEq, Repr

/-- The observable outcome of one Supervisor-driven run of a Runtime:
the hooks invoked in order, the lifecycle states visited in order, and the
terminal state. -/
structure RunOutcome where
  invoked : List Hook
  visited : List RuntimeState
  terminal : RuntimeState
deriving DecidableEq, Repr

/-- Modelled from the spec: the Supervisor ("BasePea") run loop is not in
the source fragment.  Per the spec and the `BaseRuntime` docstrings, the
spawned context executes `setup`; if it raises, `serve_forever` and
`teardown` are never invoked and the owning state becomes `Failed`;
otherwise `serve_forever` runs (blocking) and, whether it is unblocked by
`cancel` or exits by raising, the run proceeds straight to `teardown`. -/
def supervisorRun (setupRaises : Bool) (e : ServeExit) : RunOutcome :=
  if setupRaises then
    { invoked := [Hook.setup]
      visited := [RuntimeState.Created, RuntimeState.SettingUp, RuntimeState.Failed]
      terminal := RuntimeState.Failed }
  else
    match e with
    | ServeExit.unblockedByCancel =>
      { invoked := [Hook.setup, Hook.serveForever, Hook.teardown]
        visited := [RuntimeState.Created, RuntimeState.SettingUp, RuntimeState.Serving,
                    RuntimeState.Cancelling, RuntimeState.TornDown, RuntimeState.Terminated]
        terminal := RuntimeState.Terminated }
    | ServeExit.raisedError =>
      { invoked := [Hook.setup, Hook.serveForever, Hook.teardown]
        visited := [RuntimeState.Created, RuntimeState.SettingUp, RuntimeState.Serving,
                    RuntimeState.Cancelling, RuntimeState.TornDown, RuntimeState.Terminated]
        terminal := RuntimeState.Terminated }

/-! ## The RuntimeState transition system (modelled from the spec) -/

/-- Modelled from the spec: the state machine
`Created → SettingUp → Serving → Cancelling → TornDown → Terminated`, with
the single error shortcut `SettingUp → Failed`; `Failed` is absorbing. -/
def stateStep : RuntimeState → RuntimeState → Bool
  | RuntimeState.Created, RuntimeState.SettingUp => true
  | RuntimeState.SettingUp, RuntimeState.Serving => true
  | RuntimeState.SettingUp, RuntimeState.Failed => true
  | RuntimeState.Serving, RuntimeState.Cancelling => true
  | RuntimeState.Cancelling, RuntimeState.TornDown => true
  | RuntimeState.TornDown, RuntimeState.Terminated => true
  | _, _ => false

/-- Position of a state in the linear serving path (with `Failed` ranked
past `SettingUp`, the only state it can be entered from). -/
def stateRank : RuntimeState → Nat
  | RuntimeState.Created => 0
  | RuntimeState.SettingUp => 1
  | RuntimeState.Serving => 2
  | RuntimeState.Cancelling => 3
  | RuntimeState.TornDown => 4
  | RuntimeState.Terminated => 5
  | RuntimeState.Failed => 6

lemma stateStep_rank_lt {s t : RuntimeState} (h : stateStep s t = true) :
    stateRank s < stateRank t := by
  cases s <;> cases t <;> simp_all [stateStep, stateRank]

/-- The rank order on states, as a named relation so that transitivity can
be registered as an instance. -/
def rankLt (s t : RuntimeState) : Prop := stateRank s < stateRank t

instance : IsTrans RuntimeState rankLt := ⟨fun _ _ _ h1 h2 => Nat.lt_trans h1 h2⟩

lemma chain_stateStep_nodup (l : List RuntimeState)
    (h : List.Chain' (fun a b => stateStep a b = true) l) : l.Nodup := by
  have h2 : List.Chain' rankLt l :=
    List.Chain'.imp (fun a b hab => stateStep_rank_lt hab) h
  have h3 : List.Pairwise rankLt l := List.chain'_iff_pairwise.mp h2
  exact h3.imp (fun hab heq => absurd (heq ▸ hab) (Nat.lt_irrefl _))

/-! ## The cancellation protocol (modelled from the spec) -/

/-- An event observed by a Supervisor whose Runtime's `setup` succeeds:
either the owning context delivers the `cancel` signal, or the spawned
context makes one step of progress (`tick`).  `serve_forever` blocks,
i.e. a tick in state `Serving` is a no-op, until the signal is set. -/
inductive Ev
  | cancel
  | tick
deriving DecidableEq, Repr

/-- Cross-context state of one Supervisor: the current lifecycle phase, the
write-once cancellation signal, and the hooks invoked so far. -/
structure SupState where
  phase : RuntimeState
  flag : Bool
  invoked : List Hook
deriving DecidableEq, Repr

/-- Modelled from the spec: the Supervisor ("BasePea") run loop is not in
the source fragment.  One step of the spawned context: entering `SettingUp`
invokes `setup` (assumed to succeed here — the cancellation claims concern
runs that reach `serve_forever`), entering `Serving` invokes
`serve_forever`, which then blocks until the cancellation signal is
observed; entering `TornDown` invokes `teardown`; `Terminated` is final. -/
def tickStep (s : SupState) : SupState :=
  match s.phase with
  | RuntimeState.Created =>
    { s with phase := RuntimeState.SettingUp, invoked := s.invoked ++ [Hook.setup] }
  | RuntimeState.SettingUp =>
    { s with phase := RuntimeState.Serving, invoked := s.invoked ++ [Hook.serveForever] }
  | RuntimeState.Serving =>
    if s.flag then { s with phase := RuntimeState.Cancelling } else s
  | RuntimeState.Cancelling =>
    { s with phase := RuntimeState.TornDown, invoked := s.invoked ++ [Hook.teardown] }
  | RuntimeState.TornDown =>
    { s with phase := RuntimeState.Terminated }
  | RuntimeState.Terminated => s
  | RuntimeState.Failed => s

/-- Modelled from the spec: `cancel()` delivered from the owning context
sets the shared write-once cancellation signal; delivering it again is the
same write.  A `tick` advances the spawned context by `tickStep`. -/
def stepEv (s : SupState) : Ev → SupState
  | Ev.cancel => { s with flag := true }
  | Ev.tick => tickStep s

/-- Initial Supervisor state: Runtime just created, signal unset, no hook
invoked yet. -/
def initSup : SupState :=
  { phase := RuntimeState.Created, flag := false, invoked := [] }

/-- Run a Supervisor under an arbitrary interleaving of cancel deliveries
and spawned-context steps. -/
def runEvents (evs : List Ev) : SupState :=
  evs.foldl stepEv initSup

lemma stepEv_flag_mono {s : SupState} (e : Ev) (h : s.flag = true) :
    (stepEv s e).flag = true := by
  cases e with
  | cancel => rfl
  | tick =>
    show (tickStep s).flag = true
    unfold tickStep
    cases hp : s.phase <;> simp [h]

lemma foldl_flag_of_mem {evs : List Ev} :
    ∀ {s : SupState}, Ev.cancel ∈ evs → (evs.foldl stepEv s).flag = true := by
  induction evs with
  | nil => intro s h; cases h
  | cons e t ih =>
    intro s h
    cases e with
    | cancel =>
      by_cases hm : Ev.cancel ∈ t
      · exact ih hm
      · have : ∀ {u : SupState}, u.flag = true → (t.foldl stepEv u).flag = true := by
          clear ih h hm
          induction t with
          | nil => intro u hu; exact hu
          | cons e2 t2 ih2 =>
            intro u hu
            exact ih2 (stepEv_flag_mono e2 hu)
        exact this rfl
    | tick =>
      have hm : Ev.cancel ∈ t := by
        rcases List.mem_cons.mp h with h2 | h2
        · exact absurd h2 (by decide)
        · exact h2
      exact ih hm

/-- The teardown-count invariant: the number of `teardown` invocations
recorded so far is 1 exactly in the two post-teardown phases, and the
`Failed` phase is unreachable in this (setup-succeeds) model. -/
def SupInv (s : SupState) : Prop :=
  s.invoked.count Hook.teardown =
      (if s.phase = RuntimeState.TornDown ∨ s.phase = RuntimeState.Terminated then 1 else 0)
    ∧ s.phase ≠ RuntimeState.Failed

lemma supInv_init : SupInv initSup := by
  constructor <;> simp [initSup]

lemma supInv_step {s : SupState} (e : Ev) (h : SupInv s) : SupInv (stepEv s e) := by
  obtain ⟨hc, hf⟩ := h
  cases e with
  | cancel => exact ⟨hc, hf⟩
  | tick =>
    show SupInv (tickStep s)
    unfold tickStep
    cases hp : s.phase <;> simp_all [SupInv, List.count_append]
    split <;> simp_all [SupInv]

lemma supInv_foldl (evs : List Ev) :
    ∀ {s : SupState}, SupInv s → SupInv (evs.foldl stepEv s) := by
  induction evs with
  | nil => intro s h; exact h
  | cons e t ih => intro s h; exact ih (supInv_step e h)

lemma ticks5_terminated (s : SupState) (hf : s.flag = true)
    (hnf : s.phase ≠ RuntimeState.Failed) :
    ((List.replicate 5 Ev.tick).foldl stepEv s).phase = RuntimeState.Terminated := by
  obtain ⟨p, f, inv⟩ := s
  simp only at hf hnf
  subst hf
  cases p <;> simp_all [List.replicate, stepEv, tickStep, List.foldl]

/-! ## BaseRuntime, from `src/jina/peapods/runtimes/base.py` -/

/-- What a hook method does when invoked: return normally,
`raise NotImplementedError`, or raise some other error (possible in
subclass overrides). -/
inductive HookBehavior
  | returnsNone
  | raisesNotImplemented
  | raisesError
deriving DecidableEq, Repr

/-- A Runtime class: the behavior of each of the four hook methods.
State is not modelled because `BaseRuntime` holds none and its default
hooks touch none. -/
structure RuntimeClass where
  setup : HookBehavior
  serve_forever : HookBehavior
  cancel : HookBehavior
  teardown : HookBehavior
deriving DecidableEq, Repr

/-- `BaseRuntime` itself: `setup` and `teardown` are `pass` (return `None`,
touch nothing); `serve_forever` and `cancel` `raise NotImplementedError`. -/
def BaseRuntime : RuntimeClass :=
  { setup := HookBehavior.returnsNone
    serve_forever := HookBehavior.raisesNotImplemented
    cancel := HookBehavior.raisesNotImplemented
    teardown := HookBehavior.returnsNone }

/-- A subclass that overrides only the two mandatory hooks
(`serve_forever` and `cancel`), inheriting `setup`/`teardown` from
`BaseRuntime`. -/
def overrideMandatory (sf c : HookBehavior) : RuntimeClass :=
  { BaseRuntime with serve_forever := sf, cancel := c }

/-! ## Configuration builders, from `src/jina/parsers/peapods/` -/

/-- Modelled from the spec: `jina/enums.py` is not in the source fragment.
The polling policy: ANY = exactly one replica consumes a unit of work,
ALL = broadcast to every replica. -/
inductive PollingType
  | ANY
  | ALL
deriving DecidableEq, Repr

/-- Modelled from the spec: `jina/enums.py` is not in the source fragment.
The scheduling policy; the spec names `LOAD_BALANCE` (the default) and
calls the set extensible. -/
inductive SchedulerType
  | LOAD_BALANCE
deriving DecidableEq, Repr

/-- Modelled from the spec: `jina/enums.py` is not in the source fragment.
The remote-access mode; `JINAD` is the local-delegated-protocol default
named by the source. -/
inductive RemoteAccessType
  | JINAD
deriving DecidableEq, Repr

/-- Modelled from the spec: `jina/enums.py` is not in the source fragment.
The remote-entity kind: a whole Pod (group) or a single Pea (worker). -/
inductive RemotePeapodType
  | POD
  | PEA
deriving DecidableEq, Repr

/-- The `type=`/`action=` of an argparse registration. -/
inductive ArgType
  | intArg
  | strArg
  | pollingFromString
  | schedulerFromString
  | remoteAccessFromString
  | remotePeapodFromString
  | storeTrueFlag
deriving DecidableEq, Repr

/-- The `default=` of an argparse registration (argparse gives `None` when
no default is written, as for `--uses-before`/`--uses-after`). -/
inductive ArgValue
  | vInt (n : Int)
  | vStr (s : String)
  | vBool (b : Bool)
  | vPolling (p : PollingType)
  | vScheduler (s : SchedulerType)
  | vRemoteAccess (r : RemoteAccessType)
  | vRemotePeapod (t : RemotePeapodType)
  | vNone
deriving DecidableEq, Repr

/-- One `add_argument` registration: the option name with its aliases, its
type and its default.  Help text is elided. -/
structure ArgSpec where
  names : List String
  argType : ArgType
  defaultVal : ArgValue
deriving DecidableEq, Repr

/-- The registrations `set_pod_parser` adds in its own
"pod replica arguments" group (`src/jina/parsers/peapods/pod.py`, the
`gp4` group; the base/pea registrations it delegates to are outside the
source fragment). -/
def set_pod_parser_replica_args : List ArgSpec :=
  [ { names := ["--parallel", "--shards"], argType := ArgType.intArg,
      defaultVal := ArgValue.vInt 1 }
  , { names := ["--polling"], argType := ArgType.pollingFromString,
      defaultVal := ArgValue.vPolling PollingType.ANY }
  , { names := ["--scheduling"], argType := ArgType.schedulerFromString,
      defaultVal := ArgValue.vScheduler SchedulerType.LOAD_BALANCE }
  , { names := ["--uses-before"], argType := ArgType.strArg,
      defaultVal := ArgValue.vNone }
  , { names := ["--uses-after"], argType := ArgType.strArg,
      defaultVal := ArgValue.vNone }
  , { names := ["--shutdown-idle"], argType := ArgType.storeTrueFlag,
      defaultVal := ArgValue.vBool false } ]

/-- The registrations of `mixin_base_pod_parser`
(`src/jina/parsers/peapods/pods/base.py`, the `gp0` "Pod" group). -/
def mixin_base_pod_parser_args : List ArgSpec :=
  [ { names := ["--uses-before"], argType := ArgType.strArg,
      defaultVal := ArgValue.vNone }
  , { names := ["--uses-after"], argType := ArgType.strArg,
      defaultVal := ArgValue.vNone }
  , { names := ["--parallel", "--shards"], argType := ArgType.intArg,
      defaultVal := ArgValue.vInt 1 }
  , { names := ["--polling"], argType := ArgType.pollingFromString,
      defaultVal := ArgValue.vPolling PollingType.ANY }
  , { names := ["--scheduling"], argType := ArgType.schedulerFromString,
      defaultVal := ArgValue.vScheduler SchedulerType.LOAD_BALANCE }
  , { names := ["--shutdown-idle"], argType := ArgType.storeTrueFlag,
      defaultVal := ArgValue.vBool false }
  , { names := ["--remote-access"], argType := ArgType.remoteAccessFromString,
      defaultVal := ArgValue.vRemoteAccess RemoteAccessType.JINAD }
  , { names := ["--remote-type"], argType := ArgType.remotePeapodFromString,
      defaultVal := ArgValue.vRemotePeapod RemotePeapodType.POD } ]

/-- The default an option name gets when the builder's parser runs with no
explicit options: the `defaultVal` of the first registration carrying that
name. -/
def defaultOf (args : List ArgSpec) (name : String) : Option ArgValue :=
  (args.find? (fun a => a.names.contains name)).map (fun a => a.defaultVal)

/-! ## Group construction (modelled from the spec) -/

/-- The validated configuration struct handed to the Group constructor,
built from the options the pod builders register. -/
structure GroupConfig where
  parallel : Int
  polling : PollingType
  scheduling : SchedulerType
  usesBefore : Option String
  usesAfter : Option String
  shutdownIdle : Bool
deriving DecidableEq, Repr

/-- Modelled from the spec: Group ("BasePod") construction is not in the
source fragment.  Configuration validation: the replication factor must be
at least 1. -/
def validateGroupConfig (c : GroupConfig) : Bool :=
  decide (1 ≤ c.parallel)

/-- Number of Supervisors a valid Group spawns: one per replica, plus one
each for the pre-stage and post-stage when configured. -/
def numSupervisors (c : GroupConfig) : Nat :=
  c.parallel.toNat + (if c.usesBefore.isSome then 1 else 0)
    + (if c.usesAfter.isSome then 1 else 0)

/-- Outcome of constructing a Group: the validated configuration (present
exactly on success), how many Supervisors were spawned, and the
synchronous validation error (present exactly on failure). -/
structure ConstructOutcome where
  group : Option GroupConfig
  spawned : Nat
  errorMsg : Option String
deriving DecidableEq, Repr

/-- Modelled from the spec: Group construction is not in the source
fragment.  Validation runs first; a configuration that fails it is
reported synchronously, before any Supervisor is spawned. -/
def constructGroup (c : GroupConfig) : ConstructOutcome :=
  if validateGroupConfig c then
    { group := some c, spawned := numSupervisors c, errorMsg := none }
  else
    { group := none, spawned := 0,
      errorMsg := some "replication factor must be at least 1" }

/-! ## Work distribution under ANY polling (modelled from the spec) -/

/-- Modelled from the spec: message routing is not in the source fragment.
The index of the first idle replica, if any ("whoever is idle" polls). -/
def firstIdle : List Bool → Option Nat
  | [] => none
  | true :: _ => some 0
  | false :: t => (firstIdle t).map (fun i => i + 1)

/-- Modelled from the spec: under ANY polling a unit of work is handed to
the first available idle replica and to nobody else; under ALL polling it
is broadcast to every replica.  Returns the indices of the replicas that
consume the unit. -/
def consumersOf (p : PollingType) (idle : List Bool) : List Nat :=
  match p with
  | PollingType.ANY =>
    match firstIdle idle with
    | some i => [i]
    | none => []
  | PollingType.ALL => List.range idle.length

lemma firstIdle_of_mem {idle : List Bool} (h : true ∈ idle) :
    ∃ i, firstIdle idle = some i ∧ i < idle.length := by
  induction idle with
  | nil => cases h
  | cons b t ih =>
    cases b with
    | true => exact ⟨0, rfl, Nat.succ_pos _⟩
    | false =>
      have hm : true ∈ t := by
        rcases List.mem_cons.mp h with h2 | h2
        · exact absurd h2 (by decide)
        · exact h2
      obtain ⟨i, hi, hlt⟩ := ih hm
      exact ⟨i + 1, by simp [firstIdle, hi], Nat.succ_lt_succ hlt⟩

/-! ## Claim theorems -/

/-- C1: for a Runtime whose `setup` raises, `serve_forever` and `teardown`
are never invoked (zero invocations recorded, the run's hook trace is just
the failing `setup`), and the owning Supervisor's terminal RuntimeState is
`Failed` — however `serve_forever` would have exited had it run. -/
theorem c1_setup_failure_skips_hooks_and_fails (e : ServeExit) :
    (supervisorRun true e).invoked = [Hook.setup]
      ∧ (supervisorRun true e).invoked.count Hook.serveForever = 0
      ∧ (supervisorRun true e).invoked.count Hook.teardown = 0
      ∧ (supervisorRun true e).terminal = RuntimeState.Failed := by
  cases e <;> exact ⟨rfl, rfl, rfl, rfl⟩

/-- C2: `teardown` is invoked exactly when `setup` succeeded (once then,
never otherwise), and the run is identical whether `serve_forever` was
unblocked by `cancel` or exited by raising — an error inside
`serve_forever` is an implicit cancellation that proceeds straight to
`teardown`. -/
theorem c2_teardown_iff_setup_succeeded (setupRaises : Bool) (e : ServeExit) :
    ((supervisorRun setupRaises e).invoked.count Hook.teardown
        = if setupRaises then 0 else 1)
      ∧ supervisorRun setupRaises ServeExit.raisedError
        = supervisorRun setupRaises ServeExit.unblockedByCancel := by
  cases setupRaises <;> cases e <;> exact ⟨rfl, rfl⟩

/-- C3: within one Supervisor's run the hook invocations are strictly
sequential and in the order `setup`, then (iff setup succeeded)
`serve_forever`, then `teardown`; no hook is repeated.  The run is a
single list of invocations of one execution context, so no two hooks
overlap. -/
theorem c3_hooks_strict_sequential_order (setupRaises : Bool) (e : ServeExit) :
    ((supervisorRun setupRaises e).invoked
        = Hook.setup
            :: (if setupRaises then [] else [Hook.serveForever, Hook.teardown]))
      ∧ (supervisorRun setupRaises e).invoked.Nodup := by
  cases setupRaises <;> cases e <;> refine ⟨rfl, ?_⟩ <;> decide

/-- C4: for a Supervisor whose Runtime's setup succeeds, any schedule of
events that delivers the `cancel` signal at least once — before the
Runtime reaches `Serving` or while it is blocked there, once or many
times — leads, once the spawned context gets to run (five further steps
suffice from any phase), to `teardown` having been invoked exactly once
and the Supervisor terminated: cancellation is idempotent and never
lost. -/
theorem c4_cancel_idempotent_teardown_once (evs : List Ev)
    (h : Ev.cancel ∈ evs) :
    ((runEvents (evs ++ List.replicate 5 Ev.tick)).invoked.count Hook.teardown = 1)
      ∧ (runEvents (evs ++ List.replicate 5 Ev.tick)).phase
          = RuntimeState.Terminated := by
  have hsplit : runEvents (evs ++ List.replicate 5 Ev.tick)
      = (List.replicate 5 Ev.tick).foldl stepEv (evs.foldl stepEv initSup) := by
    simp [runEvents, List.foldl_append]
  have hflag : (evs.foldl stepEv initSup).flag = true := foldl_flag_of_mem h
  have hinv1 : SupInv (evs.foldl stepEv initSup) := supInv_foldl evs supInv_init
  have hterm : ((List.replicate 5 Ev.tick).foldl stepEv
      (evs.foldl stepEv initSup)).phase = RuntimeState.Terminated :=
    ticks5_terminated _ hflag hinv1.2
  have hinv2 : SupInv ((List.replicate 5 Ev.tick).foldl stepEv
      (evs.foldl stepEv initSup)) :=
    supInv_foldl _ hinv1
  constructor
  · rw [hsplit]
    have hc := hinv2.1
    rw [hterm, if_pos (Or.inr rfl)] at hc
    exact hc
  · rw [hsplit]
    exact hterm

/-- Witness for C4: a schedule that delivers `cancel` twice, before the
Runtime has even begun `setup`. -/
theorem c4_witness :
    ((runEvents ([Ev.cancel, Ev.cancel, Ev.tick]
        ++ List.replicate 5 Ev.tick)).invoked.count Hook.teardown = 1)
      ∧ (runEvents ([Ev.cancel, Ev.cancel, Ev.tick]
          ++ List.replicate 5 Ev.tick)).phase = RuntimeState.Terminated :=
  c4_cancel_idempotent_teardown_once [Ev.cancel, Ev.cancel, Ev.tick] (by decide)

/-- C5: the RuntimeState machine is strictly linear: its transitions are
exactly the successive pairs of
`Created, SettingUp, Serving, Cancelling, TornDown, Terminated` plus the
single error shortcut `SettingUp → Failed`; every transition sequence
visits no state twice; `Failed` is absorbing; and the state sequences of
the Supervisor runs are transition sequences of this machine. -/
theorem c5_state_machine_strictly_linear :
    (∀ s t, stateStep s t = true ↔
        ((s = RuntimeState.Created ∧ t = RuntimeState.SettingUp)
          ∨ (s = RuntimeState.SettingUp ∧ t = RuntimeState.Serving)
          ∨ (s = RuntimeState.SettingUp ∧ t = RuntimeState.Failed)
          ∨ (s = RuntimeState.Serving ∧ t = RuntimeState.Cancelling)
          ∨ (s = RuntimeState.Cancelling ∧ t = RuntimeState.TornDown)
          ∨ (s = RuntimeState.TornDown ∧ t = RuntimeState.Terminated)))
      ∧ (∀ l : List RuntimeState,
          List.Chain' (fun a b => stateStep a b = true) l → l.Nodup)
      ∧ (∀ t, stateStep RuntimeState.Failed t = false)
      ∧ (∀ setupRaises e, List.Chain' (fun a b => stateStep a b = true)
          (supervisorRun setupRaises e).visited) := by
  refine ⟨by decide, chain_stateStep_nodup, by decide, ?_⟩
  intro setupRaises e
  cases setupRaises <;> cases e <;>
    simp [supervisorRun, List.chain'_cons, stateStep]

/-- Witness for C5: the failing run's state sequence is a transition
sequence, hence visits no state twice. -/
theorem c5_witness :
    ([RuntimeState.Created, RuntimeState.SettingUp, RuntimeState.Failed]
      : List RuntimeState).Nodup :=
  c5_state_machine_strictly_linear.2.1 _
    (by simp [List.chain'_cons, stateStep])

/-- C6: on `BaseRuntime` itself, `setup` and `teardown` return normally
(no-ops), while `serve_forever` and `cancel` raise `NotImplementedError`
— so a body is usable only once it overrides the two mandatory hooks —
and a body overriding only those two keeps the default `setup`/`teardown`
and so can never fail during setup. -/
theorem c6_base_runtime_stub_behavior (sf c : HookBehavior) :
    BaseRuntime.setup = HookBehavior.returnsNone
      ∧ BaseRuntime.teardown = HookBehavior.returnsNone
      ∧ BaseRuntime.serve_forever = HookBehavior.raisesNotImplemented
      ∧ BaseRuntime.cancel = HookBehavior.raisesNotImplemented
      ∧ (overrideMandatory sf c).setup = HookBehavior.returnsNone
      ∧ (overrideMandatory sf c).teardown = HookBehavior.returnsNone :=
  ⟨rfl, rfl, rfl, rfl, rfl, rfl⟩

/-- C7: with no explicit options, both builders yield the documented
defaults: replication factor (`--parallel`/`--shards`) 1, polling `ANY`,
scheduling `LOAD_BALANCE`, `--shutdown-idle` off, and (registered by the
base-pod mixin) remote access `JINAD` and remote entity kind `POD`. -/
theorem c7_builder_defaults :
    defaultOf set_pod_parser_replica_args "--parallel" = some (ArgValue.vInt 1)
      ∧ defaultOf set_pod_parser_replica_args "--shards" = some (ArgValue.vInt 1)
      ∧ defaultOf set_pod_parser_replica_args "--polling"
          = some (ArgValue.vPolling PollingType.ANY)
      ∧ defaultOf set_pod_parser_replica_args "--scheduling"
          = some (ArgValue.vScheduler SchedulerType.LOAD_BALANCE)
      ∧ defaultOf set_pod_parser_replica_args "--shutdown-idle"
          = some (ArgValue.vBool false)
      ∧ defaultOf mixin_base_pod_parser_args "--parallel" = some (ArgValue.vInt 1)
      ∧ defaultOf mixin_base_pod_parser_args "--shards" = some (ArgValue.vInt 1)
      ∧ defaultOf mixin_base_pod_parser_args "--polling"
          = some (ArgValue.vPolling PollingType.ANY)
      ∧ defaultOf mixin_base_pod_parser_args "--scheduling"
          = some (ArgValue.vScheduler SchedulerType.LOAD_BALANCE)
      ∧ defaultOf mixin_base_pod_parser_args "--shutdown-idle"
          = some (ArgValue.vBool false)
      ∧ defaultOf mixin_base_pod_parser_args "--remote-access"
          = some (ArgValue.vRemoteAccess RemoteAccessType.JINAD)
      ∧ defaultOf mixin_base_pod_parser_args "--remote-type"
          = some (ArgValue.vRemotePeapod RemotePeapodType.POD) := by
  decide

/-- C8: a configuration the Group constructor accepts has replication
factor at least 1 (whatever validates, and whatever is stored in a built
Group), and an invalid replication factor is reported synchronously at
validation time with zero Supervisors spawned. -/
theorem c8_replication_factor_validated (c : GroupConfig) :
    (validateGroupConfig c = true → 1 ≤ c.parallel)
      ∧ (∀ g, (constructGroup c).group = some g → 1 ≤ g.parallel)
      ∧ (¬ 1 ≤ c.parallel →
          (constructGroup c).errorMsg
              = some "replication factor must be at least 1"
            ∧ (constructGroup c).spawned = 0) := by
  refine ⟨fun hv => of_decide_eq_true hv, ?_, ?_⟩
  · intro g hg
    by_cases hv : validateGroupConfig c = true
    · rw [constructGroup, if_pos hv] at hg
      have : c = g := by simpa using hg
      exact this ▸ of_decide_eq_true hv
    · rw [constructGroup, if_neg hv] at hg
      simp at hg
  · intro hlt
    have hv : validateGroupConfig c ≠ true := by
      simp [validateGroupConfig, hlt]
    rw [constructGroup, if_neg hv]
    exact ⟨rfl, rfl⟩

/-- Witness for C8 at the concrete invalid replication factor 0. -/
theorem c8_witness :
    (constructGroup
          { parallel := 0, polling := PollingType.ANY,
            scheduling := SchedulerType.LOAD_BALANCE, usesBefore := none,
            usesAfter := none, shutdownIdle := false }).errorMsg
        = some "replication factor must be at least 1"
      ∧ (constructGroup
          { parallel := 0, polling := PollingType.ANY,
            scheduling := SchedulerType.LOAD_BALANCE, usesBefore := none,
            usesAfter := none, shutdownIdle := false }).spawned = 0 :=
  (c8_replication_factor_validated _).2.2 (by decide)

/-- C9: under ANY polling, whenever some replica is available, a unit of
work is consumed by exactly one replica (a valid index), never by more
than one. -/
theorem c9_any_polling_exactly_one_consumer (idle : List Bool)
    (h : true ∈ idle) :
    (∃ i, consumersOf PollingType.ANY idle = [i] ∧ i < idle.length)
      ∧ (consumersOf PollingType.ANY idle).length = 1 := by
  obtain ⟨i, hi, hlt⟩ := firstIdle_of_mem h
  refine ⟨⟨i, ?_, hlt⟩, ?_⟩ <;> simp [consumersOf, hi]

/-- Witness for C9 with three replicas of which the second and third are
idle. -/
theorem c9_witness :
    (∃ i, consumersOf PollingType.ANY [false, true, true] = [i]
        ∧ i < ([false, true, true] : List Bool).length)
      ∧ (consumersOf PollingType.ANY [false, true, true]).length = 1 :=
  c9_any_polling_exactly_one_consumer [false, true, true] (by decide)

/-- C10: every option registered by `set_pod_parser`'s pod-replica group
is registered by `mixin_base_pod_parser` with identical names, type and
default, and the options the mixin registers beyond that group are
exactly `--remote-access` and `--remote-type`. -/
theorem c10_builders_register_identically :
    (set_pod_parser_replica_args.all
        (fun a => mixin_base_pod_parser_args.any (fun b => decide (a = b)))
      = true)
      ∧ ((mixin_base_pod_parser_args.filter
            (fun b => set_pod_parser_replica_args.all
              (fun a => decide (¬ a.names = b.names)))).map
          (fun a => a.names)
        = [["--remote-access"], ["--remote-type"]]) := by
  decide

end Jina
